import Mathlib

/-!
Shallow embedding of the authentication/authorization subsystem of the
kbchat backend (src/auth/*): data model (types.ts), configuration
(config.js authConfig), JWT service (jwt.service.ts), user service
(user.service.ts), middleware (authenticate.ts, authorize.ts) and the
auth routes (routes.ts).  Machine integers are Nat; clock values are
epoch seconds passed explicitly; network calls are oracle parameters;
fallible code returns Except.
-/

namespace KbChat

/-- Decoded ID token claims from Entra ID (types.ts EntraIdTokenPayload).
Optional fields are Option; a JS empty string is a present-but-falsy value. -/
structure EntraIdTokenPayload where
  aud : String
  iss : String
  iat : Nat
  exp : Nat
  email : Option String
  upn : Option String
  name : Option String
  oid : String
  roles : Option (List String)
deriving Repr, DecidableEq

/-- Provider linkage inside AppUser (types.ts AppUser.entraId). -/
structure EntraIdLink where
  oid : String
  upn : String
deriving Repr, DecidableEq

/-- Application user, mapped from Entra ID (types.ts AppUser).
lastLogin is an abstract timestamp (the Date constructed at sync time). -/
structure AppUser where
  id : String
  email : String
  name : String
  displayName : String
  entraId : EntraIdLink
  roles : List String
  permissions : List String
  lastLogin : Nat
  isActive : Bool
deriving Repr, DecidableEq

/-- JWT payload for the application session (types.ts AppSessionJWT). -/
structure AppSessionJWT where
  sub : String
  email : String
  name : String
  displayName : String
  roles : List String
  iat : Nat
  exp : Nat
  iss : String
  aud : String
deriving Repr, DecidableEq

/-- Entra ID token endpoint response (types.ts EntraIdTokenResponse).
The id_token is the raw wire string handed to the verifier oracle. -/
structure EntraIdTokenResponse where
  access_token : String
  token_type : String
  expires_in : Nat
  id_token : String
  refresh_token : Option String
deriving Repr, DecidableEq

/-- The auth-relevant slice of config.js authConfig: jwt.secret,
jwt.issuer, jwt.audience, the roleMapping table, and cookie.name. -/
structure AuthConfig where
  jwtSecret : String
  jwtIssuer : String
  jwtAudience : String
  roleMapping : List (String × String)
  cookieName : String := "app_session"
deriving Repr, DecidableEq

/-- The concrete roleMapping literal of config.js. -/
def configRoleMapping : List (String × String) :=
  [("admin", "admin"), ("viewer", "viewer")]

/-- JS object lookup authConfig.roleMapping[role]: undefined becomes none. -/
def lookupRole (mapping : List (String × String)) (role : String) : Option String :=
  (mapping.find? (fun pair => pair.1 == role)).map Prod.snd

/-- JS string disjunction a || b on an optional string: none and the
empty string are falsy. -/
def jsOr (a : Option String) (b : String) : String :=
  match a with
  | none => b
  | some s => if s = "" then b else s

/-- JS truthiness of an optional string value. -/
def strTruthy : Option String → Bool
  | none => false
  | some s => s != ""

/-! ### User service (user.service.ts) -/

/-- The permissionMap literal inside UserService.getPermissionsForRoles;
an unknown role yields the empty list (permissionMap[role] || []). -/
def permissionMap (role : String) : List String :=
  if role = "admin" then
    ["read:documents", "write:documents", "delete:documents",
     "manage:users", "manage:rag", "manage:roles"]
  else if role = "analyst" then
    ["read:documents", "write:documents", "query:rag", "export:documents"]
  else if role = "viewer" then
    ["read:documents", "query:rag"]
  else []

/-- JS Set.add: insert at the back unless already present (insertion order). -/
def addPerm (acc : List String) (p : String) : List String :=
  if p ∈ acc then acc else acc ++ [p]

/-- UserService.getPermissionsForRoles: accumulate each role's permission
list into a Set, then Array.from preserving insertion order. -/
def getPermissionsForRoles (roles : List String) : List String :=
  roles.foldl (fun acc role => (permissionMap role).foldl addPerm acc) []

/-- UserService.syncUserFromEntraId: map provider roles through the
roleMapping, drop unmapped entries, default to viewer when empty,
derive permissions, and build the AppUser record. -/
def syncUserFromEntraId (cfg : AuthConfig) (claims : EntraIdTokenPayload)
    (now : Nat) : AppUser :=
  let entraRoles := claims.roles.getD []
  let internalRoles := entraRoles.filterMap (lookupRole cfg.roleMapping)
  let finalRoles := if internalRoles.length > 0 then internalRoles else ["viewer"]
  { id := claims.oid
    email := jsOr claims.email (jsOr claims.upn "")
    name := jsOr claims.name "User"
    displayName := jsOr claims.name "User"
    entraId := { oid := claims.oid, upn := claims.upn.getD "" }
    roles := finalRoles
    permissions := getPermissionsForRoles finalRoles
    lastLogin := now
    isActive := true }

/-! ### JWT service (jwt.service.ts), over a symbolic token type -/

/-- A wire token: either a well-formed JWT signed over a payload with a
secret and algorithm, or any other string (malformed).  The empty cookie
string is represented as malformed "". -/
inductive Token where
  | signed (payload : AppSessionJWT) (secret : String) (alg : String)
  | malformed (raw : String)
deriving Repr, DecidableEq

/-- Failure modes of jsonwebtoken jwt.verify.  Every one of them is a
JsonWebTokenError (TokenExpiredError is a subclass), so the service
catch-branch applies to all of them. -/
inductive JwtError where
  | malformedToken
  | invalidAlgorithm
  | invalidSignature
  | tokenExpired
  | audienceMismatch
  | issuerMismatch
deriving Repr, DecidableEq

/-- The message carried by each jsonwebtoken error. -/
def JwtError.message : JwtError → String
  | .malformedToken => "jwt malformed"
  | .invalidAlgorithm => "invalid algorithm"
  | .invalidSignature => "invalid signature"
  | .tokenExpired => "jwt expired"
  | .audienceMismatch => "jwt audience invalid"
  | .issuerMismatch => "jwt issuer invalid"

/-- jsonwebtoken jwt.verify with pinned algorithms, issuer and audience:
decode, check the algorithm against the allow-list, check the signature,
then expiry (TokenExpiredError exactly when exp has passed), then
audience and issuer, in the order the library performs them. -/
def jwtVerify (token : Token) (secret : String) (algorithms : List String)
    (issuer : String) (audience : String) (now : Nat) :
    Except JwtError AppSessionJWT :=
  match token with
  | .malformed _ => .error .malformedToken
  | .signed payload tokenSecret alg =>
    if alg ∉ algorithms then .error .invalidAlgorithm
    else if tokenSecret ≠ secret then .error .invalidSignature
    else if payload.exp ≤ now then .error .tokenExpired
    else if payload.aud ≠ audience then .error .audienceMismatch
    else if payload.iss ≠ issuer then .error .issuerMismatch
    else .ok payload

/-- Result of JwtService.issueToken: the signed token and expiresIn. -/
structure IssueResult where
  token : Token
  expiresIn : Nat
deriving Repr, DecidableEq

/-- JwtService.issueToken: a fixed one-hour lifetime, payload built only
from the AppUser fields and the configured issuer/audience, signed HS256
with the server secret. -/
def issueToken (cfg : AuthConfig) (user : AppUser) (now : Nat) : IssueResult :=
  let expiresIn := 60 * 60
  let payload : AppSessionJWT :=
    { sub := user.id
      email := user.email
      name := user.name
      displayName := user.displayName
      roles := user.roles
      iat := now
      exp := now + expiresIn
      iss := cfg.jwtIssuer
      aud := cfg.jwtAudience }
  { token := .signed payload cfg.jwtSecret "HS256", expiresIn := expiresIn }

/-- A JSON claim value as it appears in the session payload literal. -/
inductive ClaimValue where
  | str (s : String)
  | num (n : Nat)
  | strList (l : List String)
deriving Repr, DecidableEq

/-- The object literal of jwt.service.ts issueToken, as an ordered list
of (claim name, value) entries: exactly these nine claims and no other. -/
def payloadEntries (p : AppSessionJWT) : List (String × ClaimValue) :=
  [("sub", .str p.sub), ("email", .str p.email), ("name", .str p.name),
   ("displayName", .str p.displayName), ("roles", .strList p.roles),
   ("iat", .num p.iat), ("exp", .num p.exp),
   ("iss", .str p.iss), ("aud", .str p.aud)]

/-- JwtService.verifyToken: jwt.verify pinned to HS256 with the
configured secret, issuer and audience; any JsonWebTokenError is
re-thrown as a generic Error whose message wraps the library message. -/
def verifyToken (cfg : AuthConfig) (now : Nat) (token : Token) :
    Except String AppSessionJWT :=
  match jwtVerify token cfg.jwtSecret ["HS256"] cfg.jwtIssuer cfg.jwtAudience now with
  | .ok payload => .ok payload
  | .error e => .error ("Token verification failed: " ++ e.message)

/-! ### Middleware (authenticate.ts, authorize.ts) -/

/-- The auth-relevant part of an Express request: the app_session cookie
value and the req.user slot the middleware may fill. -/
structure Request where
  cookieAppSession : Option Token
  user : Option AppSessionJWT
deriving Repr, DecidableEq

/-- JS truthiness of the cookie value read by the middleware: absent or
the empty string is falsy. -/
def tokenTruthy : Option Token → Bool
  | none => false
  | some (.malformed s) => s != ""
  | some (.signed _ _ _) => true

/-- Public user summary returned to the client: the only user fields any
endpoint body carries ({id, email, name, displayName, roles}). -/
structure PublicUser where
  id : String
  email : String
  name : String
  displayName : String
  roles : List String
deriving Repr, DecidableEq

/-- Response bodies produced by the auth middleware and routes. -/
inductive Body where
  | errMsg (error : String)
  | roleForbidden (error : String) (required : List String) (actual : List String)
  | authSuccess (user : PublicUser)
  | authFailure (error : String)
  | meOk (user : PublicUser)
  | successMsg (message : String)
deriving Repr, DecidableEq

/-- A Set-Cookie directive: cookie name, token value, and the express
maxAge in milliseconds (the Max-Age header is maxAgeMs / 1000 seconds). -/
structure SetCookie where
  name : String
  value : Token
  maxAgeMs : Nat
deriving Repr, DecidableEq

/-- An HTTP response: status, JSON body, and optional Set-Cookie. -/
structure HttpResponse where
  status : Nat
  body : Body
  setCookie : Option SetCookie
deriving Repr, DecidableEq

/-- Outcome of a middleware: either a response was sent and next() was
NOT called (the downstream handler never runs), or next() was called
with the possibly updated request. -/
inductive MwResult where
  | respond (status : Nat) (body : Body)
  | proceed (req : Request)
deriving Repr, DecidableEq

/-- authenticate (required mode): falsy cookie yields 401 no-session;
a verification failure yields 401 invalid-session; success attaches the
payload to req.user and continues. -/
def authenticate (cfg : AuthConfig) (now : Nat) (req : Request) : MwResult :=
  match req.cookieAppSession with
  | none => .respond 401 (.errMsg "Unauthorized: No session")
  | some token =>
    if tokenTruthy (some token) = false then
      .respond 401 (.errMsg "Unauthorized: No session")
    else
      match verifyToken cfg now token with
      | .ok payload => .proceed { req with user := some payload }
      | .error _ => .respond 401 (.errMsg "Unauthorized: Invalid session")

/-- optionalAuth: attaches req.user when the cookie verifies, swallows
any failure, and always calls next(). -/
def optionalAuth (cfg : AuthConfig) (now : Nat) (req : Request) : MwResult :=
  match req.cookieAppSession with
  | none => .proceed req
  | some token =>
    if tokenTruthy (some token) = false then .proceed req
    else
      match verifyToken cfg now token with
      | .ok payload => .proceed { req with user := some payload }
      | .error _ => .proceed req

/-- authorize(allowedRoles): 401 with no identity; otherwise permit iff
some role of the identity is in the allow-list, else 403 reporting both
the required and the actual roles. -/
def authorize (allowedRoles : List String) (req : Request) : MwResult :=
  match req.user with
  | none => .respond 401 (.errMsg "Unauthorized: No session")
  | some u =>
    if u.roles.any (fun role => allowedRoles.contains role) then
      .proceed req
    else
      .respond 403 (.roleForbidden "Forbidden: Insufficient role permissions"
        allowedRoles u.roles)

/-- requirePermission(permission): 401 with no identity; the permission
check itself is commented out in the source (allow-all stub), so any
request with an identity proceeds. -/
def requirePermission (permission : String) (req : Request) : MwResult :=
  match req.user with
  | none => .respond 401 (.errMsg "Unauthorized: No session")
  | some _ => .proceed req

/-- requireAllPermissions(permissions): 401 with no identity; the check
is an unimplemented stub, so any request with an identity proceeds. -/
def requireAllPermissions (permissions : List String) (req : Request) : MwResult :=
  match req.user with
  | none => .respond 401 (.errMsg "Unauthorized: No session")
  | some _ => .proceed req

/-! ### Routes (routes.ts) -/

/-- Body of POST /callback (types.ts OAuthCallbackRequest). -/
structure CallbackRequest where
  code : Option String
  state : Option String
deriving Repr, DecidableEq

/-- The POST /callback handler.  The two network-touching steps, code
exchange and ID-token verification, are oracle parameters; an Except
error models the corresponding service throwing.  A falsy code yields
400; any failure in the chain is caught and yields 500 with success
false and no cookie; success sets the session cookie with express
maxAge expiresIn * 1000 ms and returns the public user summary. -/
def callback (cfg : AuthConfig)
    (exchangeCodeForTokens : String → Option String → Except String EntraIdTokenResponse)
    (verifyIdToken : String → Except String EntraIdTokenPayload)
    (now : Nat) (req : CallbackRequest) : HttpResponse :=
  match req.code with
  | none =>
    { status := 400, body := .authFailure "Missing authorization code", setCookie := none }
  | some code =>
    if code = "" then
      { status := 400, body := .authFailure "Missing authorization code", setCookie := none }
    else
      match exchangeCodeForTokens code req.state with
      | .error e => { status := 500, body := .authFailure e, setCookie := none }
      | .ok tokens =>
        match verifyIdToken tokens.id_token with
        | .error e => { status := 500, body := .authFailure e, setCookie := none }
        | .ok entraIdClaims =>
          let appUser := syncUserFromEntraId cfg entraIdClaims now
          let issued := issueToken cfg appUser now
          { status := 200
            body := .authSuccess
              { id := appUser.id
                email := appUser.email
                name := appUser.name
                displayName := appUser.displayName
                roles := appUser.roles }
            setCookie := some
              { name := cfg.cookieName
                value := issued.token
                maxAgeMs := issued.expiresIn * 1000 } }

/-- The GET /me handler body (runs after authenticate). -/
def meHandler (req : Request) : HttpResponse :=
  match req.user with
  | none => { status := 401, body := .errMsg "Not authenticated", setCookie := none }
  | some u =>
    { status := 200
      body := .meOk
        { id := u.sub, email := u.email, name := u.name,
          displayName := u.displayName, roles := u.roles }
      setCookie := none }

/-- The POST /refresh handler body (runs after authenticate).  The
reissue logic is a TODO stub: it returns a fixed success message, never
issues a token and never sets a cookie. -/
def refreshHandler (req : Request) : HttpResponse :=
  match req.user with
  | none => { status := 401, body := .errMsg "Not authenticated", setCookie := none }
  | some _ =>
    { status := 200, body := .successMsg "Token refreshed", setCookie := none }

/-- Compose a middleware with a route handler: if the middleware
responds, the handler never runs. -/
def runRoute (mw : Request → MwResult) (handler : Request → HttpResponse)
    (req : Request) : HttpResponse :=
  match mw req with
  | .respond s b => { status := s, body := b, setCookie := none }
  | .proceed req2 => handler req2

/-- GET /me end to end: authenticate then the me handler. -/
def meRoute (cfg : AuthConfig) (now : Nat) (req : Request) : HttpResponse :=
  runRoute (authenticate cfg now) meHandler req

/-- POST /refresh end to end: authenticate then the refresh handler. -/
def refreshRoute (cfg : AuthConfig) (now : Nat) (req : Request) : HttpResponse :=
  runRoute (authenticate cfg now) refreshHandler req

/-! ### Concrete fixtures used by witnesses and counterexamples -/

/-- A concrete configuration with the config.js defaults: issuer is the
backend URL, audience the frontend URL, roleMapping the config literal. -/
def devConfig : AuthConfig :=
  { jwtSecret := "dev-secret"
    jwtIssuer := "http://localhost:4000"
    jwtAudience := "http://localhost:3000"
    roleMapping := configRoleMapping }

/-- A session payload for a viewer-role user. -/
def viewerSession : AppSessionJWT :=
  { sub := "u1", email := "v@example.com", name := "Viewer", displayName := "Viewer",
    roles := ["viewer"], iat := 0, exp := 3600,
    iss := "http://localhost:4000", aud := "http://localhost:3000" }

/-- A session payload for an admin-role user. -/
def adminSession : AppSessionJWT :=
  { sub := "u2", email := "a@example.com", name := "Admin", displayName := "Admin",
    roles := ["admin"], iat := 0, exp := 3600,
    iss := "http://localhost:4000", aud := "http://localhost:3000" }

/-- A request that already passed authentication as the viewer user. -/
def viewerIdentityReq : Request := { cookieAppSession := none, user := some viewerSession }

/-- A request with no cookie and no identity. -/
def anonReq : Request := { cookieAppSession := none, user := none }

/-- A request carrying a valid admin session cookie. -/
def adminCookieReq : Request :=
  { cookieAppSession := some (.signed adminSession "dev-secret" "HS256"), user := none }

/-- A request carrying a valid viewer session cookie. -/
def viewerCookieReq : Request :=
  { cookieAppSession := some (.signed viewerSession "dev-secret" "HS256"), user := none }

/-- Verified provider claims whose role list contains a duplicate. -/
def duplicateRoleClaims : EntraIdTokenPayload :=
  { aud := "client-id", iss := "https://login.microsoftonline.com/t/v2.0",
    iat := 0, exp := 100, email := none, upn := none, name := none,
    oid := "user-1", roles := some ["admin", "admin"] }

/-- A session payload that is already expired at time 100. -/
def expiredSession : AppSessionJWT :=
  { sub := "u1", email := "v@example.com", name := "Viewer", displayName := "Viewer",
    roles := ["viewer"], iat := 0, exp := 10,
    iss := "http://localhost:4000", aud := "http://localhost:3000" }

/-- A request whose session cookie is signed but expired. -/
def expiredCookieReq : Request :=
  { cookieAppSession := some (.signed expiredSession "dev-secret" "HS256"), user := none }

/-- A request whose session cookie is not a well-formed JWT. -/
def malformedCookieReq : Request :=
  { cookieAppSession := some (.malformed "not-a-jwt"), user := none }

/-- A fixture token-endpoint response. -/
def fixtureTokens : EntraIdTokenResponse :=
  { access_token := "at", token_type := "Bearer", expires_in := 3600,
    id_token := "id-token-wire", refresh_token := none }

/-- Fixture verified provider claims for oid u1 with provider role admin. -/
def fixtureClaims : EntraIdTokenPayload :=
  { aud := "client-id", iss := "https://login.microsoftonline.com/t/v2.0",
    iat := 0, exp := 7200, email := some "u1@example.com",
    upn := some "u1@example.com", name := some "User One", oid := "u1",
    roles := some ["admin"] }

/-- An exchange oracle that always succeeds with the fixture tokens. -/
def goodExchange : String → Option String → Except String EntraIdTokenResponse :=
  fun _ _ => .ok fixtureTokens

/-- A verifier oracle that always succeeds with the fixture claims. -/
def goodVerifyId : String → Except String EntraIdTokenPayload :=
  fun _ => .ok fixtureClaims

/-- An exchange oracle that always fails as the provider rejecting the code. -/
def badExchange : String → Option String → Except String EntraIdTokenResponse :=
  fun _ _ => .error "Failed to exchange code for tokens: invalid_grant"

/-! ### Helper lemmas for the permission-set union -/

/-- Membership after one JS Set.add step. -/
theorem mem_addPerm (acc : List String) (q p : String) :
    p ∈ addPerm acc q ↔ p ∈ acc ∨ p = q := by
  by_cases hq : q ∈ acc
  · simp only [addPerm, if_pos hq]
    constructor
    · exact Or.inl
    · rintro (h | rfl)
      · exact h
      · exact hq
  · simp [addPerm, hq]

/-- Membership after folding one role's permission list into the Set. -/
theorem mem_foldl_addPerm (l acc : List String) (p : String) :
    p ∈ l.foldl addPerm acc ↔ p ∈ acc ∨ p ∈ l := by
  induction l generalizing acc with
  | nil => simp
  | cons q l ih =>
    rw [List.foldl_cons, ih, mem_addPerm]
    simp [or_assoc]

/-- One Set.add step preserves Nodup. -/
theorem nodup_addPerm (acc : List String) (q : String) (h : acc.Nodup) :
    (addPerm acc q).Nodup := by
  by_cases hq : q ∈ acc
  · simpa [addPerm, hq] using h
  · simp [addPerm, hq, List.nodup_append, h]

/-- Folding a permission list into the Set preserves Nodup. -/
theorem nodup_foldl_addPerm (l acc : List String) (h : acc.Nodup) :
    (l.foldl addPerm acc).Nodup := by
  induction l generalizing acc with
  | nil => simpa
  | cons q l ih =>
    rw [List.foldl_cons]
    exact ih _ (nodup_addPerm acc q h)

/-- Membership in the accumulated permission set over a role list. -/
theorem mem_outer_foldl (roles acc : List String) (p : String) :
    p ∈ roles.foldl (fun acc role => (permissionMap role).foldl addPerm acc) acc ↔
      p ∈ acc ∨ ∃ r ∈ roles, p ∈ permissionMap r := by
  induction roles generalizing acc with
  | nil => simp
  | cons r roles ih =>
    rw [List.foldl_cons, ih, mem_foldl_addPerm]
    simp [or_assoc]

/-- The accumulated permission set over a role list has no duplicates. -/
theorem nodup_outer_foldl (roles acc : List String) (h : acc.Nodup) :
    (roles.foldl (fun acc role => (permissionMap role).foldl addPerm acc) acc).Nodup := by
  induction roles generalizing acc with
  | nil => simpa
  | cons r roles ih =>
    rw [List.foldl_cons]
    exact ih _ (nodup_foldl_addPerm _ _ h)

/-! ### Claim theorems -/

/-- Claim C1, counterexample: a request whose identity has the viewer
role proceeds through requirePermission "manage:users" and through
requireAllPermissions ["manage:users"] even though "manage:users" is not
in the permission set derived for its roles, so the middleware does not
evaluate the check against the identity's permission set. -/
theorem requirePermission_allows_missing_permission :
    requirePermission "manage:users" viewerIdentityReq = .proceed viewerIdentityReq ∧
    requireAllPermissions ["manage:users"] viewerIdentityReq = .proceed viewerIdentityReq ∧
    "manage:users" ∉ getPermissionsForRoles viewerSession.roles := by
  decide

/-- Claim C1, amended: with no identity attached requirePermission and
requireAllPermissions respond 401; with an identity attached both are
allow-all stubs and permit every request regardless of permissions. -/
theorem permission_middleware_is_allow_all_stub (p : String) (ps : List String)
    (req : Request) :
    (req.user = none →
      requirePermission p req = .respond 401 (.errMsg "Unauthorized: No session") ∧
      requireAllPermissions ps req = .respond 401 (.errMsg "Unauthorized: No session")) ∧
    (∀ u, req.user = some u →
      requirePermission p req = .proceed req ∧
      requireAllPermissions ps req = .proceed req) := by
  constructor
  · intro h
    exact ⟨by simp [requirePermission, h], by simp [requireAllPermissions, h]⟩
  · intro u hu
    exact ⟨by simp [requirePermission, hu], by simp [requireAllPermissions, hu]⟩

/-- Witness for the amended C1 theorem at concrete requests. -/
theorem permission_middleware_is_allow_all_stub_witness :
    (requirePermission "read:documents" anonReq =
      .respond 401 (.errMsg "Unauthorized: No session")) ∧
    requirePermission "manage:users" viewerIdentityReq = .proceed viewerIdentityReq := by
  exact ⟨((permission_middleware_is_allow_all_stub "read:documents" [] anonReq).1 rfl).1,
    ((permission_middleware_is_allow_all_stub "manage:users" [] viewerIdentityReq).2
      viewerSession rfl).1⟩

/-- Claim C2, counterexample: provider roles ["admin", "admin"] map to
internal roles ["admin", "admin"]; the role list of the synced user is
not de-duplicated. -/
theorem syncUser_roles_not_deduplicated :
    (syncUserFromEntraId devConfig duplicateRoleClaims 0).roles = ["admin", "admin"] ∧
    ¬ (syncUserFromEntraId devConfig duplicateRoleClaims 0).roles.Nodup := by
  decide

/-- Claim C2, amended: syncUserFromEntraId derives the role list by
mapping each entry of claims.roles (empty when absent) through the
roleMapping and dropping unmapped entries, without de-duplication; when
the mapped list is empty it assigns exactly ["viewer"], so the role list
is never empty (but may contain duplicates). -/
theorem syncUser_role_derivation (cfg : AuthConfig) (claims : EntraIdTokenPayload)
    (now : Nat) :
    (syncUserFromEntraId cfg claims now).roles =
      (if ((claims.roles.getD []).filterMap (lookupRole cfg.roleMapping)).length > 0
       then (claims.roles.getD []).filterMap (lookupRole cfg.roleMapping)
       else ["viewer"]) ∧
    (syncUserFromEntraId cfg claims now).roles ≠ [] := by
  refine ⟨rfl, ?_⟩
  show (if _ then _ else _) ≠ []
  split
  · next h => intro hnil; rw [hnil] at h; simp at h
  · simp

/-- Claim C4: verifying the token issued for any user at issuance time
succeeds and returns a credential whose subject is the user's id and
whose role list is exactly the user's role list. -/
theorem issue_verify_roundtrip (cfg : AuthConfig) (user : AppUser) (now : Nat) :
    ∃ cred : AppSessionJWT,
      verifyToken cfg now (issueToken cfg user now).token = .ok cred ∧
      cred.sub = user.id ∧ cred.roles = user.roles := by
  refine ⟨{ sub := user.id, email := user.email, name := user.name,
            displayName := user.displayName, roles := user.roles,
            iat := now, exp := now + 60 * 60, iss := cfg.jwtIssuer,
            aud := cfg.jwtAudience }, ?_, rfl, rfl⟩
  simp [verifyToken, issueToken, jwtVerify]

/-- Claim C5: the issued session token is signed HS256 with the server
secret over a payload holding exactly the nine minimal claims (sub,
email, name, displayName, roles, iat, exp, iss, aud), every value drawn
from the AppUser fields and the configured issuer/audience (no provider
tokens exist in AppUser), with exp = iat + 3600 and expiresIn = 3600,
for every user and clock (issueToken takes no client input). -/
theorem issueToken_minimal_claims_fixed_lifetime (cfg : AuthConfig) (user : AppUser)
    (now : Nat) :
    ∃ payload : AppSessionJWT,
      (issueToken cfg user now).token = .signed payload cfg.jwtSecret "HS256" ∧
      (payloadEntries payload).map Prod.fst =
        ["sub", "email", "name", "displayName", "roles", "iat", "exp", "iss", "aud"] ∧
      payload = { sub := user.id, email := user.email, name := user.name,
                  displayName := user.displayName, roles := user.roles,
                  iat := now, exp := now + 3600, iss := cfg.jwtIssuer,
                  aud := cfg.jwtAudience } ∧
      payload.exp = payload.iat + 3600 ∧
      (issueToken cfg user now).expiresIn = 3600 := by
  exact ⟨_, rfl, rfl, rfl, rfl, rfl⟩

/-- Claim C7: authorize(allowedRoles) responds 401 when no identity is
attached; proceeds when the identity's role set intersects the
allow-list; responds 403 reporting both the required and the actual
roles when they are disjoint. -/
theorem authorize_role_check (allowedRoles : List String) (req : Request) :
    (req.user = none →
      authorize allowedRoles req = .respond 401 (.errMsg "Unauthorized: No session")) ∧
    (∀ u, req.user = some u →
      ((∃ r ∈ u.roles, r ∈ allowedRoles) → authorize allowedRoles req = .proceed req) ∧
      ((∀ r ∈ u.roles, r ∉ allowedRoles) →
        authorize allowedRoles req =
          .respond 403 (.roleForbidden "Forbidden: Insufficient role permissions"
            allowedRoles u.roles))) := by
  constructor
  · intro h; simp [authorize, h]
  · intro u hu
    constructor
    · intro hex
      simp [authorize, hu]
      exact hex
    · intro hall
      simp [authorize, hu]
      exact hall

/-- Witness for C7 at concrete requests: overlap proceeds, disjoint
yields 403 with required and actual roles, no identity yields 401. -/
theorem authorize_role_check_witness :
    authorize ["viewer", "admin"] viewerIdentityReq = .proceed viewerIdentityReq ∧
    authorize ["admin"] viewerIdentityReq =
      .respond 403 (.roleForbidden "Forbidden: Insufficient role permissions"
        ["admin"] viewerSession.roles) ∧
    authorize ["admin"] anonReq = .respond 401 (.errMsg "Unauthorized: No session") := by
  refine ⟨?_, ?_, ?_⟩
  · exact ((authorize_role_check ["viewer", "admin"] viewerIdentityReq).2
      viewerSession rfl).1 (by decide)
  · exact ((authorize_role_check ["admin"] viewerIdentityReq).2
      viewerSession rfl).2 (by decide)
  · exact (authorize_role_check ["admin"] anonReq).1 rfl

/-- Claim C10, counterexample: an authenticated refresh request returns
the fixed stub response with no Set-Cookie (no credential is reissued),
and requests by users with different roles receive identical responses,
so nothing is rebuilt from current user data. -/
theorem refresh_is_stub_counterexample :
    refreshRoute devConfig 0 adminCookieReq =
      { status := 200, body := .successMsg "Token refreshed", setCookie := none } ∧
    refreshRoute devConfig 0 viewerCookieReq = refreshRoute devConfig 0 adminCookieReq := by
  decide

/-- Claim C10, amended: any authenticated POST /refresh request returns
200 with success true and the fixed message, sets no cookie and reissues
no credential (the reissue logic is an unimplemented stub); a request
with no cookie receives 401. -/
theorem refresh_returns_stub_success (cfg : AuthConfig) (now : Nat) (req : Request) :
    (∀ t payload, req.cookieAppSession = some t → verifyToken cfg now t = .ok payload →
      refreshRoute cfg now req =
        { status := 200, body := .successMsg "Token refreshed", setCookie := none }) ∧
    (req.cookieAppSession = none →
      refreshRoute cfg now req =
        { status := 401, body := .errMsg "Unauthorized: No session", setCookie := none }) := by
  constructor
  · intro t payload ht hv
    cases t with
    | malformed raw => simp [verifyToken, jwtVerify] at hv
    | signed p s a =>
      simp [refreshRoute, runRoute, authenticate, ht, tokenTruthy, hv, refreshHandler]
  · intro h
    simp [refreshRoute, runRoute, authenticate, h]

/-- Witness for the amended C10 theorem at concrete requests. -/
theorem refresh_returns_stub_success_witness :
    refreshRoute devConfig 0 adminCookieReq =
      { status := 200, body := .successMsg "Token refreshed", setCookie := none } ∧
    refreshRoute devConfig 0 anonReq =
      { status := 401, body := .errMsg "Unauthorized: No session", setCookie := none } := by
  exact ⟨(refresh_returns_stub_success devConfig 0 adminCookieReq).1
      (.signed adminSession "dev-secret" "HS256") adminSession rfl rfl,
    (refresh_returns_stub_success devConfig 0 anonReq).2 rfl⟩

/-- Claim C3: the callback returns 400 when the request body has no
(truthy) code; when the exchange or the identity-token verification
fails, it returns 500 with success false and sets no cookie (user sync
and session issuance are infallible pure computations here, so every
fallible step of the chain is covered); on success it returns 200 with
the public user summary (only id, email, name, displayName, roles) and
sets the session cookie with express maxAge expiresIn * 1000 ms, whose
Max-Age header is exactly the issued lifetime in seconds. -/
theorem callback_endpoint_behaviour (cfg : AuthConfig)
    (exchange : String → Option String → Except String EntraIdTokenResponse)
    (verifyId : String → Except String EntraIdTokenPayload)
    (now : Nat) (req : CallbackRequest) :
    (strTruthy req.code = false →
      callback cfg exchange verifyId now req =
        { status := 400, body := .authFailure "Missing authorization code",
          setCookie := none }) ∧
    (∀ code, req.code = some code → code ≠ "" →
      (∀ e, exchange code req.state = .error e →
        callback cfg exchange verifyId now req =
          { status := 500, body := .authFailure e, setCookie := none }) ∧
      (∀ tokens, exchange code req.state = .ok tokens →
        (∀ e, verifyId tokens.id_token = .error e →
          callback cfg exchange verifyId now req =
            { status := 500, body := .authFailure e, setCookie := none }) ∧
        (∀ claims, verifyId tokens.id_token = .ok claims →
          callback cfg exchange verifyId now req =
            { status := 200
              body := .authSuccess
                { id := (syncUserFromEntraId cfg claims now).id
                  email := (syncUserFromEntraId cfg claims now).email
                  name := (syncUserFromEntraId cfg claims now).name
                  displayName := (syncUserFromEntraId cfg claims now).displayName
                  roles := (syncUserFromEntraId cfg claims now).roles }
              setCookie := some
                { name := cfg.cookieName
                  value := (issueToken cfg (syncUserFromEntraId cfg claims now) now).token
                  maxAgeMs :=
                    (issueToken cfg (syncUserFromEntraId cfg claims now) now).expiresIn
                      * 1000 } }))) := by
  refine ⟨?_, ?_⟩
  · intro hfalsy
    cases hc : req.code with
    | none => simp [callback, hc]
    | some code =>
      rw [hc] at hfalsy
      simp only [strTruthy, bne_eq_false_iff_eq] at hfalsy
      simp [callback, hc, hfalsy]
  · intro code hc hne
    refine ⟨?_, ?_⟩
    · intro e hex
      simp [callback, hc, hne, hex]
    · intro tokens hex
      refine ⟨?_, ?_⟩
      · intro e hv
        simp [callback, hc, hne, hex, hv]
      · intro claims hv
        simp [callback, hc, hne, hex, hv]

/-- Witness for C3 at concrete inputs: a missing code, a failing
exchange, and the successful fixture flow (oid u1, provider role admin,
internal role list ["admin"], cookie app_session for one hour). -/
theorem callback_endpoint_behaviour_witness :
    callback devConfig goodExchange goodVerifyId 0 { code := none, state := some "st" } =
      { status := 400, body := .authFailure "Missing authorization code",
        setCookie := none } ∧
    callback devConfig badExchange goodVerifyId 0
        { code := some "good-code", state := some "st" } =
      { status := 500,
        body := .authFailure "Failed to exchange code for tokens: invalid_grant",
        setCookie := none } ∧
    callback devConfig goodExchange goodVerifyId 0
        { code := some "good-code", state := some "st" } =
      { status := 200
        body := .authSuccess
          { id := "u1", email := "u1@example.com", name := "User One",
            displayName := "User One", roles := ["admin"] }
        setCookie := some
          { name := "app_session"
            value := .signed
              { sub := "u1", email := "u1@example.com", name := "User One",
                displayName := "User One", roles := ["admin"], iat := 0, exp := 3600,
                iss := "http://localhost:4000", aud := "http://localhost:3000" }
              "dev-secret" "HS256"
            maxAgeMs := 3600000 } } := by
  refine ⟨?_, ?_, ?_⟩
  · exact (callback_endpoint_behaviour devConfig goodExchange goodVerifyId 0
      { code := none, state := some "st" }).1 rfl
  · exact ((callback_endpoint_behaviour devConfig badExchange goodVerifyId 0
      { code := some "good-code", state := some "st" }).2 "good-code" rfl
      (by decide)).1 "Failed to exchange code for tokens: invalid_grant" rfl
  · have h := (((callback_endpoint_behaviour devConfig goodExchange goodVerifyId 0
      { code := some "good-code", state := some "st" }).2 "good-code" rfl
      (by decide)).2 fixtureTokens rfl).2 fixtureClaims rfl
    exact h.trans (by decide)

/-- Claim C6: required-mode authentication yields 401 no-session on a
falsy cookie and 401 invalid-session on a failing verification, in both
cases responding without calling next() (the downstream handler never
runs); a valid cookie attaches the verified payload to req.user and
continues.  Optional-mode authentication proceeds with the request
unchanged (no identity, given the incoming request has none) on absence
or failure, and proceeds with the identity attached on success. -/
theorem authenticate_required_and_optional (cfg : AuthConfig) (now : Nat)
    (req : Request) (hstart : req.user = none) :
    (tokenTruthy req.cookieAppSession = false →
      authenticate cfg now req = .respond 401 (.errMsg "Unauthorized: No session") ∧
      optionalAuth cfg now req = .proceed req) ∧
    (∀ t, req.cookieAppSession = some t → tokenTruthy (some t) = true →
      (∀ e, verifyToken cfg now t = .error e →
        authenticate cfg now req =
          .respond 401 (.errMsg "Unauthorized: Invalid session") ∧
        optionalAuth cfg now req = .proceed req) ∧
      (∀ payload, verifyToken cfg now t = .ok payload →
        authenticate cfg now req = .proceed { req with user := some payload } ∧
        optionalAuth cfg now req = .proceed { req with user := some payload })) := by
  constructor
  · intro hfalsy
    cases hc : req.cookieAppSession with
    | none => exact ⟨by simp [authenticate, hc], by simp [optionalAuth, hc]⟩
    | some t =>
      rw [hc] at hfalsy
      exact ⟨by simp [authenticate, hc, hfalsy], by simp [optionalAuth, hc, hfalsy]⟩
  · intro t hc htrue
    constructor
    · intro e he
      exact ⟨by simp [authenticate, hc, htrue, he],
             by simp [optionalAuth, hc, htrue, he]⟩
    · intro payload hp
      exact ⟨by simp [authenticate, hc, htrue, hp],
             by simp [optionalAuth, hc, htrue, hp]⟩

/-- Witness for C6 at concrete requests: no cookie yields 401/proceed,
a valid admin cookie attaches the admin session in both modes. -/
theorem authenticate_required_and_optional_witness :
    (authenticate devConfig 0 anonReq = .respond 401 (.errMsg "Unauthorized: No session") ∧
     optionalAuth devConfig 0 anonReq = .proceed anonReq) ∧
    (authenticate devConfig 0 adminCookieReq =
        .proceed { adminCookieReq with user := some adminSession } ∧
     optionalAuth devConfig 0 adminCookieReq =
        .proceed { adminCookieReq with user := some adminSession }) := by
  refine ⟨(authenticate_required_and_optional devConfig 0 anonReq rfl).1 rfl, ?_⟩
  exact ((authenticate_required_and_optional devConfig 0 adminCookieReq rfl).2
    (.signed adminSession "dev-secret" "HS256") rfl rfl).2 adminSession rfl

/-- Claim C8, counterexample: at time 100 a GET /me request with an
expired (otherwise valid) session cookie and one with a malformed cookie
receive literally identical 401 responses, so the 401 reason is not
distinguishable between expiry and malformation. -/
theorem me_expired_vs_malformed_same_response :
    meRoute devConfig 100 expiredCookieReq = meRoute devConfig 100 malformedCookieReq ∧
    meRoute devConfig 100 expiredCookieReq =
      { status := 401, body := .errMsg "Unauthorized: Invalid session",
        setCookie := none } := by
  decide

/-- Claim C8, amended: verifyToken does distinguish expiry in the error
message it propagates (jwt expired, when the only failing check is
expiry, versus jwt malformed), but the authenticate middleware maps
every verification failure to the same 401 invalid-session response, so
GET /me returns an identical 401 for expired and malformed cookies. -/
theorem verifyToken_expiry_message_but_same_401 (cfg : AuthConfig) (now : Nat)
    (p : AppSessionJWT) (raw : String) :
    (p.exp ≤ now →
      verifyToken cfg now (.signed p cfg.jwtSecret "HS256") =
        .error "Token verification failed: jwt expired") ∧
    verifyToken cfg now (.malformed raw) =
      .error "Token verification failed: jwt malformed" ∧
    (∀ req t e, req.cookieAppSession = some t → tokenTruthy (some t) = true →
      verifyToken cfg now t = .error e →
      meRoute cfg now req =
        { status := 401, body := .errMsg "Unauthorized: Invalid session",
          setCookie := none }) := by
  refine ⟨?_, ?_, ?_⟩
  · intro hexp
    simp [verifyToken, jwtVerify, hexp, JwtError.message]
  · simp [verifyToken, jwtVerify, JwtError.message]
  · intro req t e hc htrue he
    simp [meRoute, runRoute, authenticate, hc, htrue, he]

/-- Witness for the amended C8 theorem at the concrete expired and
malformed cookies. -/
theorem verifyToken_expiry_message_but_same_401_witness :
    verifyToken devConfig 100 (.signed expiredSession "dev-secret" "HS256") =
      .error "Token verification failed: jwt expired" ∧
    verifyToken devConfig 100 (.malformed "not-a-jwt") =
      .error "Token verification failed: jwt malformed" ∧
    meRoute devConfig 100 expiredCookieReq =
      { status := 401, body := .errMsg "Unauthorized: Invalid session",
        setCookie := none } := by
  refine ⟨?_, ?_, ?_⟩
  · exact (verifyToken_expiry_message_but_same_401 devConfig 100 expiredSession
      "not-a-jwt").1 (by decide)
  · exact (verifyToken_expiry_message_but_same_401 devConfig 100 expiredSession
      "not-a-jwt").2.1
  · exact (verifyToken_expiry_message_but_same_401 devConfig 100 expiredSession
      "not-a-jwt").2.2 expiredCookieReq (.signed expiredSession "dev-secret" "HS256")
      "Token verification failed: jwt expired" rfl rfl (by rfl)

/-- Claim C9: for every role list the derived permission set has no
duplicates and a permission belongs to it exactly when some role of the
list grants it under the permissionMap (unknown roles granting nothing);
and the synced user's permissions field is recomputed from its final
role list by that very derivation. -/
theorem permissions_equal_union_of_role_permissions (roles : List String)
    (cfg : AuthConfig) (claims : EntraIdTokenPayload) (now : Nat) :
    (getPermissionsForRoles roles).Nodup ∧
    (∀ p, p ∈ getPermissionsForRoles roles ↔ ∃ r ∈ roles, p ∈ permissionMap r) ∧
    (syncUserFromEntraId cfg claims now).permissions =
      getPermissionsForRoles (syncUserFromEntraId cfg claims now).roles := by
  refine ⟨?_, ?_, rfl⟩
  · exact nodup_outer_foldl roles [] (by simp)
  · intro p
    simpa [getPermissionsForRoles] using mem_outer_foldl roles [] p

end KbChat
